import Mathlib

/-!
Verification of the negative-treatment extraction pipelines.

This file shallowly embeds the two Python pipeline variants of the
repository:

* `ENT`  — `extract_negative_treatments.py`  (remote fetch by numeric id)
* `LDNC` — `legal_decision_negative_cases.py` (local fixture lookup by slug)

External effects (the HTTP GET, the model endpoint, the environment, the
fixture directory) are abstracted into a `World` record of stubs; a run of
either `main` is a pure function from a `World` and the command-line
argument to a `RunResult` recording the console output, the file writes,
the model requests, the HTTP requests, and how the process ended.
-/

namespace NegTreat

/-- An HTTP response as seen by `requests.get`: a status code and a body
(`response.content` / `response.text` are both modelled as one string). -/
structure HttpResponse where
  status : Nat
  body : String
deriving DecidableEq

/-- One request to the model endpoint (`client.responses.create`): the
model identifier and the role-tagged input messages.  The fixed sampling
parameters (`temperature=0.1`, `top_p=1`) carry no information relevant to
the claims and are omitted. -/
structure ModelRequest where
  model : String
  input : List (String × String)
deriving DecidableEq

/-- How a process run ended: normally, via `sys.exit(code)`, via
`sys.exit(message)` (which exits with a nonzero code after printing the
message), or by an unhandled Python exception (traceback). -/
inductive Outcome where
  | normal : Outcome
  | exitCode : Nat → Outcome
  | exitMsg : String → Outcome
  | unhandled : String → Outcome
deriving DecidableEq

/-- The external world a run interacts with: the HTTP stub, the model
endpoint stub, the environment variables, the `test_data` fixture
directory (whether it exists and is a directory, which file names it
contains) and the contents of files on disk. -/
structure World where
  http : String → HttpResponse
  modelClient : ModelRequest → Except String String
  env : String → Option String
  dirIsDir : Bool
  fixtureFiles : List String
  fileContents : String → String

/-- The observable behaviour of one run: console lines in order, file
writes (each `(path, content)` pair is an `open(path, "w")` followed by a
single `write(content)`, i.e. a truncating overwrite), the requests sent
to the model endpoint, the URLs fetched over HTTP, and the outcome. -/
structure RunResult where
  console : List String
  writes : List (String × String)
  requests : List ModelRequest
  httpRequests : List String
  outcome : Outcome
deriving DecidableEq

/-- Content of `path` after the run, given its content before the run
(`none` = absent).  Every recorded write is an `"w"`-mode open, so it
replaces the previous content entirely. -/
def RunResult.fileAfter (r : RunResult) (path : String) (prior : Option String) :
    Option String :=
  r.writes.foldl (fun acc wr => if wr.1 = path then some wr.2 else acc) prior

/-! ## Text extractor

Modelled from the spec: both files delegate HTML-to-text conversion to
`BeautifulSoup(html, "html.parser").get_text(separator="\n", strip=True)`,
a third-party library whose code is not part of this repository.  Section
4.2 of the spec describes the contract: markup is discarded, the visible
text segments are each stripped of leading/trailing whitespace, blank
segments are skipped, and the remaining segments are joined by a newline;
parsing is best-effort and never throws.  The model below implements
exactly that as a total function: a lenient single-pass tokenizer in which
a tag starts at a literal less-than sign and ends at the next greater-than
sign (an unterminated tag at end of input is dropped). -/

/-- Python `str.strip` whitespace characters. -/
def pyIsSpace (c : Char) : Bool :=
  c = ' ' || c = '\t' || c = '\n' || c = '\r' || c = '\x0b' || c = '\x0c'

/-- Python `str.strip`: drop `pyIsSpace` characters from both ends. -/
def pyStrip (l : List Char) : List Char :=
  ((l.dropWhile pyIsSpace).reverse.dropWhile pyIsSpace).reverse

/-- Split a character stream into the text segments lying between markup
tags.  The first argument is true while inside a tag; the second
accumulates the current text segment. -/
def segsAux : Bool → List Char → List Char → List (List Char)
  | b, acc, [] => if b then [] else [acc]
  | b, acc, c :: cs =>
    if b then
      if c = '>' then segsAux false [] cs else segsAux true acc cs
    else
      if c = '<' then acc :: segsAux true [] cs
      else segsAux false (acc ++ [c]) cs

/-- The raw text segments of an HTML string. -/
def textSegs (html : String) : List (List Char) :=
  segsAux false [] html.data

/-- The visible text nodes: each segment stripped, blank segments
skipped (`get_text(strip=True)`). -/
def nodesOf (html : String) : List (List Char) :=
  ((textSegs html).map pyStrip).filter (fun s => s ≠ [])

/-- Join segments with the `"\n"` separator of `get_text`. -/
def joinNL : List (List Char) → List Char
  | [] => []
  | [s] => s
  | s :: t :: ss => s ++ '\n' :: joinNL (t :: ss)

/-- `BeautifulSoup(html, "html.parser").get_text(separator="\n", strip=True)`. -/
def soup_get_text (html : String) : String :=
  ⟨joinNL (nodesOf html)⟩

/-! ### Extractor lemmas -/

theorem segsAux_no_lt (cs : List Char) :
    ∀ (b : Bool) (acc : List Char), '<' ∉ acc →
      ∀ seg ∈ segsAux b acc cs, '<' ∉ seg := by
  induction cs with
  | nil =>
    intro b acc hacc seg hseg
    cases b <;> simp [segsAux] at hseg
    exact hseg ▸ hacc
  | cons c cs ih =>
    intro b acc hacc seg hseg
    cases b <;> simp only [segsAux, Bool.false_eq_true, if_true, if_false] at hseg
    · by_cases hc : c = '<'
      · rw [if_pos hc] at hseg
        rcases List.mem_cons.mp hseg with h | h
        · exact h ▸ hacc
        · exact ih true [] (by simp) seg h
      · rw [if_neg hc] at hseg
        refine ih false (acc ++ [c]) ?_ seg hseg
        intro hmem
        rcases List.mem_append.mp hmem with h | h
        · exact hacc h
        · simp only [List.mem_singleton] at h
          exact hc h.symm
    · by_cases hc : c = '>'
      · rw [if_pos hc] at hseg
        exact ih false [] (by simp) seg hseg
      · rw [if_neg hc] at hseg
        exact ih true acc hacc seg hseg

theorem mem_pyStrip {a : Char} {l : List Char} (h : a ∈ pyStrip l) : a ∈ l := by
  unfold pyStrip at h
  rw [List.mem_reverse] at h
  have h1 : a ∈ (l.dropWhile pyIsSpace).reverse := List.dropWhile_subset _ h
  rw [List.mem_reverse] at h1
  exact List.dropWhile_subset _ h1

theorem nodesOf_no_lt (html : String) : ∀ seg ∈ nodesOf html, '<' ∉ seg := by
  intro seg hseg
  unfold nodesOf at hseg
  have hseg' := List.mem_of_mem_filter hseg
  rcases List.mem_map.mp hseg' with ⟨orig, horig, hstrip⟩
  intro hmem
  have : '<' ∈ orig := mem_pyStrip (hstrip ▸ hmem)
  exact segsAux_no_lt html.data false [] (by simp) orig horig this

theorem joinNL_no_lt (ss : List (List Char)) (h : ∀ s ∈ ss, '<' ∉ s) :
    '<' ∉ joinNL ss := by
  induction ss with
  | nil => simp [joinNL]
  | cons s ss ih =>
    cases ss with
    | nil => simpa [joinNL] using h s (by simp)
    | cons t u =>
      have hih := ih (fun x hx => h x (List.mem_cons_of_mem _ hx))
      simp only [joinNL, List.mem_append, List.mem_cons]
      rintro (hs | hnl | hrest)
      · exact h s (by simp) hs
      · exact absurd hnl (by decide)
      · exact hih hrest

theorem head?_dropWhile_pyIsSpace (l : List Char) (h : Char)
    (hh : (l.dropWhile pyIsSpace).head? = some h) : pyIsSpace h = false := by
  have := List.head?_dropWhile_not pyIsSpace l
  rw [hh] at this
  exact this

theorem getLast?_dropWhile_of_ne_nil (l : List Char)
    (h : l.dropWhile pyIsSpace ≠ []) :
    (l.dropWhile pyIsSpace).getLast? = l.getLast? := by
  obtain ⟨t, ht⟩ := List.dropWhile_suffix (l := l) pyIsSpace
  conv_rhs => rw [← ht]
  rw [List.getLast?_append]
  rcases hx : (l.dropWhile pyIsSpace).getLast? with _ | x
  · exact absurd (List.getLast?_eq_none_iff.mp hx) h
  · rfl

theorem pyStrip_head (l : List Char) (h : Char)
    (hh : (pyStrip l).head? = some h) : pyIsSpace h = false := by
  unfold pyStrip at hh
  rw [List.head?_reverse] at hh
  have hne : (l.dropWhile pyIsSpace).reverse.dropWhile pyIsSpace ≠ [] := by
    intro hnil
    rw [hnil] at hh
    simp at hh
  rw [getLast?_dropWhile_of_ne_nil _ hne, List.getLast?_reverse] at hh
  exact head?_dropWhile_pyIsSpace _ _ hh

theorem pyStrip_getLast (l : List Char) (h : Char)
    (hh : (pyStrip l).getLast? = some h) : pyIsSpace h = false := by
  unfold pyStrip at hh
  rw [List.getLast?_reverse] at hh
  exact head?_dropWhile_pyIsSpace _ _ hh

theorem nodesOf_trimmed (html : String) :
    ∀ seg ∈ nodesOf html, seg ≠ [] ∧
      (∀ h, seg.head? = some h → pyIsSpace h = false) ∧
      (∀ h, seg.getLast? = some h → pyIsSpace h = false) := by
  intro seg hseg
  unfold nodesOf at hseg
  rw [List.mem_filter] at hseg
  obtain ⟨hmem, hne⟩ := hseg
  rcases List.mem_map.mp hmem with ⟨orig, _, hstrip⟩
  refine ⟨by simpa using hne, ?_, ?_⟩
  · intro h hh
    exact pyStrip_head orig h (hstrip ▸ hh)
  · intro h hh
    exact pyStrip_getLast orig h (hstrip ▸ hh)

/-! ## `extract_negative_treatments.py` (id-based variant) -/

namespace ENT

/-- Module-level `model = os.getenv("CHAT_GPT_MODEL", "gpt-3.5-turbo")`. -/
def model (env : String → Option String) : String :=
  (env "CHAT_GPT_MODEL").getD "gpt-3.5-turbo"

/-- `url = f"https://scholar.google.com/scholar_case?case=\x7bid\x7d"`.
Note the argument is a string: the CLI never converts it to an integer. -/
def scholarUrl (id : String) : String :=
  "https://scholar.google.com/scholar_case?case=" ++ id

/-- The prompt of `get_negative_treatments`, piece by piece as in the
source (adjacent Python string literals concatenate). -/
def prompt (opinion_text : String) : String :=
  "You are an expert legal analyst." ++
  "A case is treated negatively if the opinion expresses disapproval or disagreement with the case, or ignores it as precedent." ++
  "Below is the text of a legal opinion that references other cases." ++
  "DO NOT CONSIDER THE OPINION ITSELF AS A REFERENCED CASE AND DO NOT RETURN IT IN THE RESULTS." ++
  "Identify any of the referenced cases that are treated negatively in the opinion." ++
  "For each of such cases, determine the nature of the treatment, quote the text of the negative treatment, and give an explanation of why the treatment was determined to be negative." ++
  "If there are cases that are treated negatively, return a JSON encoded list where each negatively-treated case is a JSON object with the following keys: [\x27caseName\x27, \x27jurisdiction\x27, \x27citation\x27, \x27nature\x27, \x27quotedText\x27, \x27explanation\x27]." ++
  "If there are no cases treated negatively, respond EXACTLY with \x27[]\x27." ++
  "\n" ++
  "Legal Opinion Text:\n" ++ opinion_text ++ "\n"

/-- Everything of the prompt before the embedded opinion text. -/
def promptHeader : String :=
  "You are an expert legal analyst." ++
  "A case is treated negatively if the opinion expresses disapproval or disagreement with the case, or ignores it as precedent." ++
  "Below is the text of a legal opinion that references other cases." ++
  "DO NOT CONSIDER THE OPINION ITSELF AS A REFERENCED CASE AND DO NOT RETURN IT IN THE RESULTS." ++
  "Identify any of the referenced cases that are treated negatively in the opinion." ++
  "For each of such cases, determine the nature of the treatment, quote the text of the negative treatment, and give an explanation of why the treatment was determined to be negative." ++
  "If there are cases that are treated negatively, return a JSON encoded list where each negatively-treated case is a JSON object with the following keys: [\x27caseName\x27, \x27jurisdiction\x27, \x27citation\x27, \x27nature\x27, \x27quotedText\x27, \x27explanation\x27]." ++
  "If there are no cases treated negatively, respond EXACTLY with \x27[]\x27." ++
  "\n" ++
  "Legal Opinion Text:\n"

/-- The fixed system messages of `client.responses.create`. -/
def systemMsgs : List (String × String) :=
  [("system", "You are a helpful lawyer."),
   ("system", "Your response will consist ONLY of a list."),
   ("system", "You will NOT wrap the response with JSON md markers."),
   ("system", "The response JSON will have NO top-level keys.")]

/-- The single request `get_negative_treatments` sends to the endpoint. -/
def mkRequest (env : String → Option String) (opinion_text : String) : ModelRequest :=
  { model := model env,
    input := systemMsgs ++ [("user", prompt opinion_text)] }

/-- `fetch_opinion`: GET the constructed URL, `raise_for_status()` (which
raises `HTTPError` exactly for 4xx and 5xx status codes), then extract the
visible text of the body. -/
def fetch_opinion (w : World) (id : String) : Except String String :=
  if 400 ≤ (w.http (scholarUrl id)).status ∧ (w.http (scholarUrl id)).status < 600 then
    Except.error
      ("requests.exceptions.HTTPError: status " ++
        toString (w.http (scholarUrl id)).status ++ " for url " ++ scholarUrl id)
  else
    Except.ok (soup_get_text (w.http (scholarUrl id)).body)

/-- `get_negative_treatments`: one request to the model endpoint; any
exception is turned into `sys.exit("Error calling OpenAI API: ...")`,
surfaced here as the `Except.error` case. -/
def get_negative_treatments (w : World) (opinion_text : String) :
    Except String String :=
  match w.modelClient (mkRequest w.env opinion_text) with
  | Except.error e => Except.error ("Error calling OpenAI API: " ++ e)
  | Except.ok out => Except.ok out

/-- The `UnboundLocalError` raised by `f.write("")` on the empty-sentinel
branch of `main`: the local `f` is only ever bound inside the `with` of
the other branch. -/
def unboundFError : String :=
  "UnboundLocalError: local variable \x27f\x27 referenced before assignment"

/-- The request `main` sends for a given world and id argument (the model
request is a function of the environment and the fetched page body). -/
def reqOf (w : World) (id : String) : ModelRequest :=
  mkRequest w.env (soup_get_text (w.http (scholarUrl id)).body)

/-- `main(id)` of `extract_negative_treatments.py`. -/
def main (w : World) (id : String) : RunResult :=
  match fetch_opinion w id with
  | Except.error exc =>
      { console := ["Fetching legal decision text with id: " ++ id],
        writes := [], requests := [], httpRequests := [scholarUrl id],
        outcome := Outcome.unhandled exc }
  | Except.ok opinion_text =>
      match get_negative_treatments w opinion_text with
      | Except.error msg =>
          { console := ["Fetching legal decision text with id: " ++ id,
                        "Analyzing legal decision for negative case treatment using ChatGPT..."],
            writes := [], requests := [mkRequest w.env opinion_text],
            httpRequests := [scholarUrl id],
            outcome := Outcome.exitMsg msg }
      | Except.ok treatments =>
          if treatments = "[]" then
            { console := ["Fetching legal decision text with id: " ++ id,
                          "Analyzing legal decision for negative case treatment using ChatGPT...",
                          "NO NEGATIVELY-TREATED CASES FOUND!"],
              writes := [], requests := [mkRequest w.env opinion_text],
              httpRequests := [scholarUrl id],
              outcome := Outcome.unhandled unboundFError }
          else
            { console := ["Fetching legal decision text with id: " ++ id,
                          "Analyzing legal decision for negative case treatment using ChatGPT...",
                          "\nFOUND NEGATIVELY-TREATED CASE(S) (see \x27results.json\x27):",
                          treatments],
              writes := [("results.json", treatments)],
              requests := [mkRequest w.env opinion_text],
              httpRequests := [scholarUrl id],
              outcome := Outcome.normal }

/-- The `if __name__ == "__main__"` block: usage check on the argument
count, then `main(sys.argv[1])` — the argument is passed as a string,
never converted to an integer. -/
def cli (w : World) (argv : List String) : RunResult :=
  match argv with
  | [_, arg] => main w arg
  | _ =>
      { console := ["Usage: python extract_negative_treatments.py <id>"],
        writes := [], requests := [], httpRequests := [],
        outcome := Outcome.exitCode 1 }

end ENT

/-! ## `legal_decision_negative_cases.py` (slug-based variant) -/

namespace LDNC

/-- `sys.exit` message when `test_data` is absent or not a directory. -/
def dirErrMsg : String :=
  "Error: The directory \x27test_data\x27 does not exist or is not a directory."

/-- `sys.exit` message when no fixture file matches the slug. -/
def noFileMsg (slug : String) : String :=
  "Error: No HTML file matching slug \x27" ++ slug ++
    "\x27 found in \x27test_data\x27."

/-- `get_file_by_slug`: exits if `test_data` is absent/not a directory;
otherwise builds the one expected filename `slug + ".html"` and exits if
that exact file does not exist.  No directory scan, no partial match. -/
def get_file_by_slug (w : World) (slug : String) : Except String String :=
  if w.dirIsDir = true then
    if (slug ++ ".html") ∈ w.fixtureFiles then
      Except.ok ("test_data/" ++ (slug ++ ".html"))
    else Except.error (noFileMsg slug)
  else Except.error dirErrMsg

/-- `extract_text_from_html`: read the file and extract its visible text. -/
def extract_text_from_html (w : World) (file_path : String) : String :=
  soup_get_text (w.fileContents file_path)

/-- The prompt of this variant, piece by piece as in the source.  It
differs from the id-based variant in one clause ("why the treatment is
negative" instead of "why the treatment was determined to be negative"). -/
def prompt (opinion_text : String) : String :=
  "You are an expert legal analyst." ++
  "A case is treated negatively if the opinion expresses disapproval or disagreement with the case, or ignores it as precedent." ++
  "Below is the text of a legal opinion that references other cases." ++
  "DO NOT CONSIDER THE OPINION ITSELF AS A REFERENCED CASE AND DO NOT RETURN IT IN THE RESULTS." ++
  "Identify any of the referenced cases that are treated negatively in the opinion." ++
  "For each of such cases, determine the nature of the treatment, quote the text of the negative treatment, and give an explanation of why the treatment is negative." ++
  "If there are cases that are treated negatively, return a JSON encoded list where each negatively-treated case is a JSON object with the following keys: [\x27caseName\x27, \x27jurisdiction\x27, \x27citation\x27, \x27nature\x27, \x27quotedText\x27, \x27explanation\x27]." ++
  "If there are no cases treated negatively, respond EXACTLY with \x27[]\x27." ++
  "\n" ++
  "Legal Opinion Text:\n" ++ opinion_text ++ "\n"

/-- Everything of this variant's prompt before the embedded opinion text. -/
def promptHeader : String :=
  "You are an expert legal analyst." ++
  "A case is treated negatively if the opinion expresses disapproval or disagreement with the case, or ignores it as precedent." ++
  "Below is the text of a legal opinion that references other cases." ++
  "DO NOT CONSIDER THE OPINION ITSELF AS A REFERENCED CASE AND DO NOT RETURN IT IN THE RESULTS." ++
  "Identify any of the referenced cases that are treated negatively in the opinion." ++
  "For each of such cases, determine the nature of the treatment, quote the text of the negative treatment, and give an explanation of why the treatment is negative." ++
  "If there are cases that are treated negatively, return a JSON encoded list where each negatively-treated case is a JSON object with the following keys: [\x27caseName\x27, \x27jurisdiction\x27, \x27citation\x27, \x27nature\x27, \x27quotedText\x27, \x27explanation\x27]." ++
  "If there are no cases treated negatively, respond EXACTLY with \x27[]\x27." ++
  "\n" ++
  "Legal Opinion Text:\n"

/-- The fixed system messages (textually identical to the other file). -/
def systemMsgs : List (String × String) :=
  [("system", "You are a helpful lawyer."),
   ("system", "Your response will consist ONLY of a list."),
   ("system", "You will NOT wrap the response with JSON md markers."),
   ("system", "The response JSON will have NO top-level keys.")]

/-- The single request `get_negative_treatments` sends; here the model
identifier is the hard-coded literal `"gpt-3.5-turbo"` — this file reads
no model override from the environment. -/
def mkRequest (opinion_text : String) : ModelRequest :=
  { model := "gpt-3.5-turbo",
    input := systemMsgs ++ [("user", prompt opinion_text)] }

/-- `get_negative_treatments` of this variant. -/
def get_negative_treatments (w : World) (opinion_text : String) :
    Except String String :=
  match w.modelClient (mkRequest opinion_text) with
  | Except.error e => Except.error ("Error calling OpenAI API: " ++ e)
  | Except.ok out => Except.ok out

/-- The request `main` sends for a given world and slug. -/
def reqOf (w : World) (slug : String) : ModelRequest :=
  mkRequest (soup_get_text (w.fileContents ("test_data/" ++ (slug ++ ".html"))))

/-- `main(slug)` of `legal_decision_negative_cases.py`.  On the sentinel
it prints the (misspelled) message and returns without touching any file. -/
def main (w : World) (slug : String) : RunResult :=
  match get_file_by_slug w slug with
  | Except.error msg =>
      { console := ["Fetching legal decision text for slug: " ++ slug],
        writes := [], requests := [], httpRequests := [],
        outcome := Outcome.exitMsg msg }
  | Except.ok file_path =>
      match get_negative_treatments w (extract_text_from_html w file_path) with
      | Except.error msg =>
          { console := ["Fetching legal decision text for slug: " ++ slug,
                        "Analyzing legal decision for negative case treatment using ChatGPT..."],
            writes := [],
            requests := [mkRequest (extract_text_from_html w file_path)],
            httpRequests := [],
            outcome := Outcome.exitMsg msg }
      | Except.ok treatments =>
          if treatments = "[]" then
            { console := ["Fetching legal decision text for slug: " ++ slug,
                          "Analyzing legal decision for negative case treatment using ChatGPT...",
                          "NO NEGATVIELY-TREATED CASES FOUND!"],
              writes := [],
              requests := [mkRequest (extract_text_from_html w file_path)],
              httpRequests := [],
              outcome := Outcome.normal }
          else
            { console := ["Fetching legal decision text for slug: " ++ slug,
                          "Analyzing legal decision for negative case treatment using ChatGPT...",
                          "\nFOUND NEGATIVELY-TREATED CASE(S) (see \x27results.json\x27):",
                          treatments],
              writes := [("results.json", treatments)],
              requests := [mkRequest (extract_text_from_html w file_path)],
              httpRequests := [],
              outcome := Outcome.normal }

/-- The `if __name__ == "__main__"` block of this variant. -/
def cli (w : World) (argv : List String) : RunResult :=
  match argv with
  | [_, arg] => main w arg
  | _ =>
      { console := ["Usage: python legal_decision_negative_cases.py <slug>"],
        writes := [], requests := [], httpRequests := [],
        outcome := Outcome.exitCode 1 }

end LDNC

/-! ## Branch lemmas: the four control-flow outcomes of each `main` -/

theorem ENT.main_http_error (w : World) (id : String)
    (hE : 400 ≤ (w.http (ENT.scholarUrl id)).status ∧
      (w.http (ENT.scholarUrl id)).status < 600) :
    ENT.main w id =
      { console := ["Fetching legal decision text with id: " ++ id],
        writes := [], requests := [], httpRequests := [ENT.scholarUrl id],
        outcome := Outcome.unhandled
          ("requests.exceptions.HTTPError: status " ++
            toString (w.http (ENT.scholarUrl id)).status ++ " for url " ++
            ENT.scholarUrl id) } := by
  simp [ENT.main, ENT.fetch_opinion, hE]

theorem ENT.main_model_error (w : World) (id e : String)
    (hE : ¬ (400 ≤ (w.http (ENT.scholarUrl id)).status ∧
      (w.http (ENT.scholarUrl id)).status < 600))
    (hm : w.modelClient (ENT.reqOf w id) = Except.error e) :
    ENT.main w id =
      { console := ["Fetching legal decision text with id: " ++ id,
                    "Analyzing legal decision for negative case treatment using ChatGPT..."],
        writes := [], requests := [ENT.reqOf w id],
        httpRequests := [ENT.scholarUrl id],
        outcome := Outcome.exitMsg ("Error calling OpenAI API: " ++ e) } := by
  unfold ENT.reqOf at hm
  simp [ENT.main, ENT.fetch_opinion, hE, ENT.get_negative_treatments, hm,
    ENT.reqOf]

theorem ENT.main_sentinel (w : World) (id : String)
    (hE : ¬ (400 ≤ (w.http (ENT.scholarUrl id)).status ∧
      (w.http (ENT.scholarUrl id)).status < 600))
    (hm : w.modelClient (ENT.reqOf w id) = Except.ok "[]") :
    ENT.main w id =
      { console := ["Fetching legal decision text with id: " ++ id,
                    "Analyzing legal decision for negative case treatment using ChatGPT...",
                    "NO NEGATIVELY-TREATED CASES FOUND!"],
        writes := [], requests := [ENT.reqOf w id],
        httpRequests := [ENT.scholarUrl id],
        outcome := Outcome.unhandled ENT.unboundFError } := by
  unfold ENT.reqOf at hm
  simp [ENT.main, ENT.fetch_opinion, hE, ENT.get_negative_treatments, hm,
    ENT.reqOf]

theorem ENT.main_found (w : World) (id t : String)
    (hE : ¬ (400 ≤ (w.http (ENT.scholarUrl id)).status ∧
      (w.http (ENT.scholarUrl id)).status < 600))
    (hm : w.modelClient (ENT.reqOf w id) = Except.ok t)
    (ht : t ≠ "[]") :
    ENT.main w id =
      { console := ["Fetching legal decision text with id: " ++ id,
                    "Analyzing legal decision for negative case treatment using ChatGPT...",
                    "\nFOUND NEGATIVELY-TREATED CASE(S) (see \x27results.json\x27):",
                    t],
        writes := [("results.json", t)], requests := [ENT.reqOf w id],
        httpRequests := [ENT.scholarUrl id],
        outcome := Outcome.normal } := by
  unfold ENT.reqOf at hm
  simp [ENT.main, ENT.fetch_opinion, hE, ENT.get_negative_treatments, hm, ht,
    ENT.reqOf]

theorem LDNC.main_no_dir (w : World) (slug : String)
    (h : w.dirIsDir = false) :
    LDNC.main w slug =
      { console := ["Fetching legal decision text for slug: " ++ slug],
        writes := [], requests := [], httpRequests := [],
        outcome := Outcome.exitMsg LDNC.dirErrMsg } := by
  simp [LDNC.main, LDNC.get_file_by_slug, h]

theorem LDNC.main_no_file (w : World) (slug : String)
    (h1 : w.dirIsDir = true) (h2 : (slug ++ ".html") ∉ w.fixtureFiles) :
    LDNC.main w slug =
      { console := ["Fetching legal decision text for slug: " ++ slug],
        writes := [], requests := [], httpRequests := [],
        outcome := Outcome.exitMsg (LDNC.noFileMsg slug) } := by
  simp [LDNC.main, LDNC.get_file_by_slug, h1, h2]

theorem LDNC.main_model_error_slug (w : World) (slug e : String)
    (h1 : w.dirIsDir = true) (h2 : (slug ++ ".html") ∈ w.fixtureFiles)
    (hm : w.modelClient (LDNC.reqOf w slug) = Except.error e) :
    LDNC.main w slug =
      { console := ["Fetching legal decision text for slug: " ++ slug,
                    "Analyzing legal decision for negative case treatment using ChatGPT..."],
        writes := [], requests := [LDNC.reqOf w slug], httpRequests := [],
        outcome := Outcome.exitMsg ("Error calling OpenAI API: " ++ e) } := by
  unfold LDNC.reqOf at hm
  simp [LDNC.main, LDNC.get_file_by_slug, h1, h2, LDNC.get_negative_treatments,
    LDNC.extract_text_from_html, hm, LDNC.reqOf]

theorem LDNC.main_sentinel_slug (w : World) (slug : String)
    (h1 : w.dirIsDir = true) (h2 : (slug ++ ".html") ∈ w.fixtureFiles)
    (hm : w.modelClient (LDNC.reqOf w slug) = Except.ok "[]") :
    LDNC.main w slug =
      { console := ["Fetching legal decision text for slug: " ++ slug,
                    "Analyzing legal decision for negative case treatment using ChatGPT...",
                    "NO NEGATVIELY-TREATED CASES FOUND!"],
        writes := [], requests := [LDNC.reqOf w slug], httpRequests := [],
        outcome := Outcome.normal } := by
  unfold LDNC.reqOf at hm
  simp [LDNC.main, LDNC.get_file_by_slug, h1, h2, LDNC.get_negative_treatments,
    LDNC.extract_text_from_html, hm, LDNC.reqOf]

theorem LDNC.main_found_slug (w : World) (slug t : String)
    (h1 : w.dirIsDir = true) (h2 : (slug ++ ".html") ∈ w.fixtureFiles)
    (hm : w.modelClient (LDNC.reqOf w slug) = Except.ok t)
    (ht : t ≠ "[]") :
    LDNC.main w slug =
      { console := ["Fetching legal decision text for slug: " ++ slug,
                    "Analyzing legal decision for negative case treatment using ChatGPT...",
                    "\nFOUND NEGATIVELY-TREATED CASE(S) (see \x27results.json\x27):",
                    t],
        writes := [("results.json", t)], requests := [LDNC.reqOf w slug],
        httpRequests := [],
        outcome := Outcome.normal } := by
  unfold LDNC.reqOf at hm
  simp [LDNC.main, LDNC.get_file_by_slug, h1, h2, LDNC.get_negative_treatments,
    LDNC.extract_text_from_html, hm, ht, LDNC.reqOf]

/-! ## Concrete stub worlds used to instantiate the theorems -/

/-- A world where everything succeeds and the model finds a case. -/
def wFound : World :=
  { http := fun _ => { status := 200, body := "<p>hi</p>" },
    modelClient := fun _ => Except.ok "[x]",
    env := fun _ => none,
    dirIsDir := true,
    fixtureFiles := ["foo.html"],
    fileContents := fun _ => "<p>hi</p>" }

/-- Like `wFound`, but the model returns the empty-array sentinel. -/
def wEmpty : World :=
  { wFound with modelClient := fun _ => Except.ok "[]" }

/-- Like `wFound`, but the model-client call raises an exception. -/
def wErr : World :=
  { wFound with modelClient := fun _ => Except.error "boom" }

/-- Like `wFound`, but the HTTP GET answers with status 300. -/
def w300 : World :=
  { wFound with http := fun _ => { status := 300, body := "<p>hi</p>" } }

/-- Like `wFound`, but the HTTP GET answers with status 404. -/
def w404 : World :=
  { wFound with http := fun _ => { status := 404, body := "" } }

/-- Like `wEmpty`, but with the model-override environment variable set. -/
def wEnvSet : World :=
  { wEmpty with
    env := fun k => if k = "CHAT_GPT_MODEL" then some "custom-model-x" else none }

/-! ## The claims -/

/-- C1: for every model response other than the sentinel `"[]"`, both
variants write the response byte-for-byte to `results.json`, in overwrite
mode (the file content after the run is the response regardless of any
prior content), and echo the response to the console. -/
theorem claim1_found_write_verbatim (w : World) (idArg slug t : String)
    (hE : ¬ (400 ≤ (w.http (ENT.scholarUrl idArg)).status ∧
      (w.http (ENT.scholarUrl idArg)).status < 600))
    (hmE : w.modelClient (ENT.reqOf w idArg) = Except.ok t)
    (hdir : w.dirIsDir = true)
    (hfile : (slug ++ ".html") ∈ w.fixtureFiles)
    (hmL : w.modelClient (LDNC.reqOf w slug) = Except.ok t)
    (ht : t ≠ "[]") :
    (ENT.main w idArg).writes = [("results.json", t)] ∧
    t ∈ (ENT.main w idArg).console ∧
    (∀ prior, (ENT.main w idArg).fileAfter "results.json" prior = some t) ∧
    (LDNC.main w slug).writes = [("results.json", t)] ∧
    t ∈ (LDNC.main w slug).console ∧
    (∀ prior, (LDNC.main w slug).fileAfter "results.json" prior = some t) := by
  rw [ENT.main_found w idArg t hE hmE ht, LDNC.main_found_slug w slug t hdir hfile hmL ht]
  refine ⟨rfl, by simp, ?_, rfl, by simp, ?_⟩ <;>
    intro prior <;> simp [RunResult.fileAfter]

/-- Witness for C1 at a concrete world (both variants, response `"[x]"`,
prior file content `"old"` overwritten, not appended to). -/
theorem claim1_witness :
    (ENT.main wFound "1").writes = [("results.json", "[x]")] ∧
    "[x]" ∈ (ENT.main wFound "1").console ∧
    (ENT.main wFound "1").fileAfter "results.json" (some "old") = some "[x]" ∧
    (LDNC.main wFound "foo").writes = [("results.json", "[x]")] ∧
    "[x]" ∈ (LDNC.main wFound "foo").console := by
  have h := claim1_found_write_verbatim wFound "1" "foo" "[x]"
    (by decide) rfl rfl (by decide) rfl (by decide)
  exact ⟨h.1, h.2.1, h.2.2.1 (some "old"), h.2.2.2.1, h.2.2.2.2.1⟩

/-- C2: on the exact sentinel response `"[]"`, both variants report that
no negatively treated cases were found and write nothing to disk; the
slug variant returns normally (it skips the write entirely), while the id
variant dies with an `UnboundLocalError` at the `f.write("")` on the
never-opened handle `f`. -/
theorem claim2_sentinel_no_file (w : World) (idArg slug : String)
    (hE : ¬ (400 ≤ (w.http (ENT.scholarUrl idArg)).status ∧
      (w.http (ENT.scholarUrl idArg)).status < 600))
    (hmE : w.modelClient (ENT.reqOf w idArg) = Except.ok "[]")
    (hdir : w.dirIsDir = true)
    (hfile : (slug ++ ".html") ∈ w.fixtureFiles)
    (hmL : w.modelClient (LDNC.reqOf w slug) = Except.ok "[]") :
    "NO NEGATIVELY-TREATED CASES FOUND!" ∈ (ENT.main w idArg).console ∧
    (ENT.main w idArg).writes = [] ∧
    (ENT.main w idArg).outcome = Outcome.unhandled ENT.unboundFError ∧
    (∀ prior, (ENT.main w idArg).fileAfter "results.json" prior = prior) ∧
    "NO NEGATVIELY-TREATED CASES FOUND!" ∈ (LDNC.main w slug).console ∧
    (LDNC.main w slug).writes = [] ∧
    (LDNC.main w slug).outcome = Outcome.normal ∧
    (∀ prior, (LDNC.main w slug).fileAfter "results.json" prior = prior) := by
  rw [ENT.main_sentinel w idArg hE hmE, LDNC.main_sentinel_slug w slug hdir hfile hmL]
  exact ⟨by simp, rfl, rfl, fun prior => rfl, by simp, rfl, rfl, fun prior => rfl⟩

/-- Witness for C2 at a concrete world whose model stub returns `"[]"`. -/
theorem claim2_witness :
    "NO NEGATIVELY-TREATED CASES FOUND!" ∈ (ENT.main wEmpty "1").console ∧
    (ENT.main wEmpty "1").writes = [] ∧
    (ENT.main wEmpty "1").outcome = Outcome.unhandled ENT.unboundFError ∧
    "NO NEGATVIELY-TREATED CASES FOUND!" ∈ (LDNC.main wEmpty "foo").console ∧
    (LDNC.main wEmpty "foo").writes = [] ∧
    (LDNC.main wEmpty "foo").outcome = Outcome.normal := by
  have h := claim2_sentinel_no_file wEmpty "1" "foo"
    (by decide) rfl rfl (by decide) rfl
  exact ⟨h.1, h.2.1, h.2.2.1, h.2.2.2.2.1, h.2.2.2.2.2.1, h.2.2.2.2.2.2.1⟩

/-- C3: invariant over every run of either variant: starting from an
absent or empty `results.json`, after the run the file holds exactly the
text the model returned (some `t ≠ "[]"`, persisted with no validation) or
it is still absent/empty.  No run writes any other content. -/
theorem claim3_result_file_invariant (w : World) (idArg slug : String)
    (prior : Option String) (hprior : prior = none ∨ prior = some "") :
    ((∃ t, w.modelClient (ENT.reqOf w idArg) = Except.ok t ∧ t ≠ "[]" ∧
        (ENT.main w idArg).fileAfter "results.json" prior = some t) ∨
      (ENT.main w idArg).fileAfter "results.json" prior = none ∨
      (ENT.main w idArg).fileAfter "results.json" prior = some "") ∧
    ((∃ t, w.modelClient (LDNC.reqOf w slug) = Except.ok t ∧ t ≠ "[]" ∧
        (LDNC.main w slug).fileAfter "results.json" prior = some t) ∨
      (LDNC.main w slug).fileAfter "results.json" prior = none ∨
      (LDNC.main w slug).fileAfter "results.json" prior = some "") := by
  constructor
  · by_cases hE : 400 ≤ (w.http (ENT.scholarUrl idArg)).status ∧
        (w.http (ENT.scholarUrl idArg)).status < 600
    · rw [ENT.main_http_error w idArg hE]
      rcases hprior with h | h <;> rw [h] <;> simp [RunResult.fileAfter]
    · rcases hmc : w.modelClient (ENT.reqOf w idArg) with e | t
      · rw [ENT.main_model_error w idArg e hE hmc]
        rcases hprior with h | h <;> rw [h] <;> simp [RunResult.fileAfter]
      · by_cases ht : t = "[]"
        · subst ht
          rw [ENT.main_sentinel w idArg hE hmc]
          rcases hprior with h | h <;> rw [h] <;> simp [RunResult.fileAfter]
        · exact Or.inl ⟨t, rfl, ht, by
            rw [ENT.main_found w idArg t hE hmc ht]
            simp [RunResult.fileAfter]⟩
  · by_cases hdir : w.dirIsDir = true
    · by_cases hmem : (slug ++ ".html") ∈ w.fixtureFiles
      · rcases hmc : w.modelClient (LDNC.reqOf w slug) with e | t
        · rw [LDNC.main_model_error_slug w slug e hdir hmem hmc]
          rcases hprior with h | h <;> rw [h] <;> simp [RunResult.fileAfter]
        · by_cases ht : t = "[]"
          · subst ht
            rw [LDNC.main_sentinel_slug w slug hdir hmem hmc]
            rcases hprior with h | h <;> rw [h] <;> simp [RunResult.fileAfter]
          · exact Or.inl ⟨t, rfl, ht, by
              rw [LDNC.main_found_slug w slug t hdir hmem hmc ht]
              simp [RunResult.fileAfter]⟩
      · rw [LDNC.main_no_file w slug hdir hmem]
        rcases hprior with h | h <;> rw [h] <;> simp [RunResult.fileAfter]
    · have hdir' : w.dirIsDir = false := by
        revert hdir; cases w.dirIsDir <;> simp
      rw [LDNC.main_no_dir w slug hdir']
      rcases hprior with h | h <;> rw [h] <;> simp [RunResult.fileAfter]

/-- Witness for C3: concrete run (found case) starting from an absent
file. -/
theorem claim3_witness :
    ((∃ t, wFound.modelClient (ENT.reqOf wFound "1") = Except.ok t ∧ t ≠ "[]" ∧
        (ENT.main wFound "1").fileAfter "results.json" none = some t) ∨
      (ENT.main wFound "1").fileAfter "results.json" none = none ∨
      (ENT.main wFound "1").fileAfter "results.json" none = some "") ∧
    ((∃ t, wFound.modelClient (LDNC.reqOf wFound "foo") = Except.ok t ∧ t ≠ "[]" ∧
        (LDNC.main wFound "foo").fileAfter "results.json" none = some t) ∨
      (LDNC.main wFound "foo").fileAfter "results.json" none = none ∨
      (LDNC.main wFound "foo").fileAfter "results.json" none = some "") :=
  claim3_result_file_invariant wFound "1" "foo" none (Or.inl rfl)

/-- C4 as stated is false on the code: `raise_for_status()` raises only
for 4xx/5xx, so a non-2xx status such as 300 does NOT stop the pipeline —
at this concrete input the model endpoint is invoked and the result file
is written even though the GET returned a non-2xx status. -/
theorem claim4_counterexample :
    (w300.http (ENT.scholarUrl "5")).status = 300 ∧
    ¬ (200 ≤ (w300.http (ENT.scholarUrl "5")).status ∧
        (w300.http (ENT.scholarUrl "5")).status ≤ 299) ∧
    (ENT.main w300 "5").requests ≠ [] ∧
    (ENT.main w300 "5").writes ≠ [] := by
  refine ⟨rfl, by decide, ?_, ?_⟩ <;>
    rw [ENT.main_found w300 "5" "[x]" (by decide) rfl (by decide)] <;> simp

/-- C4 (amended): whenever the HTTP GET for the opinion page returns a
4xx or 5xx status, the id-based pipeline terminates (unhandled
`HTTPError`) before the Model Client is ever invoked: no request to the
model endpoint occurs and no result file is written. -/
theorem claim4_amended_4xx5xx_stops (w : World) (idArg : String)
    (h4 : 400 ≤ (w.http (ENT.scholarUrl idArg)).status)
    (h6 : (w.http (ENT.scholarUrl idArg)).status < 600) :
    (ENT.main w idArg).requests = [] ∧
    (ENT.main w idArg).writes = [] ∧
    (∃ exc, (ENT.main w idArg).outcome = Outcome.unhandled exc) := by
  rw [ENT.main_http_error w idArg ⟨h4, h6⟩]
  exact ⟨rfl, rfl, ⟨_, rfl⟩⟩

/-- Witness for the amended C4 at a concrete 404 world. -/
theorem claim4_witness :
    (ENT.main w404 "9").requests = [] ∧
    (ENT.main w404 "9").writes = [] ∧
    (∃ exc, (ENT.main w404 "9").outcome = Outcome.unhandled exc) :=
  claim4_amended_4xx5xx_stops w404 "9" (by decide) (by decide)

/-- C5: in both variants, if the model-client call raises any exception
`e`, the run ends at once via `sys.exit("Error calling OpenAI API: " + e)`;
exactly one request was made (no retry) and nothing was written. -/
theorem claim5_model_error_fatal (w : World) (idArg slug e : String)
    (hE : ¬ (400 ≤ (w.http (ENT.scholarUrl idArg)).status ∧
      (w.http (ENT.scholarUrl idArg)).status < 600))
    (hmE : w.modelClient (ENT.reqOf w idArg) = Except.error e)
    (hdir : w.dirIsDir = true)
    (hfile : (slug ++ ".html") ∈ w.fixtureFiles)
    (hmL : w.modelClient (LDNC.reqOf w slug) = Except.error e) :
    (ENT.main w idArg).outcome =
      Outcome.exitMsg ("Error calling OpenAI API: " ++ e) ∧
    (ENT.main w idArg).writes = [] ∧
    (ENT.main w idArg).requests = [ENT.reqOf w idArg] ∧
    (LDNC.main w slug).outcome =
      Outcome.exitMsg ("Error calling OpenAI API: " ++ e) ∧
    (LDNC.main w slug).writes = [] ∧
    (LDNC.main w slug).requests = [LDNC.reqOf w slug] := by
  rw [ENT.main_model_error w idArg e hE hmE,
    LDNC.main_model_error_slug w slug e hdir hfile hmL]
  exact ⟨rfl, rfl, rfl, rfl, rfl, rfl⟩

/-- Witness for C5 at a concrete world whose model stub raises. -/
theorem claim5_witness :
    (ENT.main wErr "1").outcome =
      Outcome.exitMsg ("Error calling OpenAI API: " ++ "boom") ∧
    (ENT.main wErr "1").writes = [] ∧
    (ENT.main wErr "1").requests = [ENT.reqOf wErr "1"] ∧
    (LDNC.main wErr "foo").outcome =
      Outcome.exitMsg ("Error calling OpenAI API: " ++ "boom") ∧
    (LDNC.main wErr "foo").writes = [] := by
  have h := claim5_model_error_fatal wErr "1" "foo" "boom"
    (by decide) rfl rfl (by decide) rfl
  exact ⟨h.1, h.2.1, h.2.2.1, h.2.2.2.1, h.2.2.2.2.1⟩

/-- C6 as stated is false on the code: in the slug-based variant the
model identifier is the hard-coded literal `"gpt-3.5-turbo"`.  At this
concrete input the override variable is set to `"custom-model-x"`, yet the
request sent still carries `"gpt-3.5-turbo"`. -/
theorem claim6_counterexample :
    wEnvSet.env "CHAT_GPT_MODEL" = some "custom-model-x" ∧
    (LDNC.main wEnvSet "foo").requests.map (fun r => r.model) =
      ["gpt-3.5-turbo"] ∧
    ("gpt-3.5-turbo" : String) ≠ "custom-model-x" := by
  refine ⟨rfl, ?_, by decide⟩
  rw [LDNC.main_sentinel_slug wEnvSet "foo" rfl (by decide) rfl]
  rfl

/-- C6 (amended): only the id-based variant reads the model identifier
from the `CHAT_GPT_MODEL` environment variable (default
`"gpt-3.5-turbo"`); every request of the slug-based variant carries the
fixed identifier `"gpt-3.5-turbo"` regardless of the environment. -/
theorem claim6_amended_model_override (wE wL : World) (a1 a2 : String)
    (r1 r2 : ModelRequest)
    (h1 : r1 ∈ (ENT.main wE a1).requests)
    (h2 : r2 ∈ (LDNC.main wL a2).requests) :
    r1.model = (wE.env "CHAT_GPT_MODEL").getD "gpt-3.5-turbo" ∧
    r2.model = "gpt-3.5-turbo" := by
  constructor
  · by_cases hE : 400 ≤ (wE.http (ENT.scholarUrl a1)).status ∧
        (wE.http (ENT.scholarUrl a1)).status < 600
    · rw [ENT.main_http_error wE a1 hE] at h1
      simp at h1
    · rcases hmc : wE.modelClient (ENT.reqOf wE a1) with e | t
      · rw [ENT.main_model_error wE a1 e hE hmc] at h1
        simp at h1
        subst h1
        rfl
      · by_cases ht : t = "[]"
        · subst ht
          rw [ENT.main_sentinel wE a1 hE hmc] at h1
          simp at h1
          subst h1
          rfl
        · rw [ENT.main_found wE a1 t hE hmc ht] at h1
          simp at h1
          subst h1
          rfl
  · by_cases hdir : wL.dirIsDir = true
    · by_cases hmem : (a2 ++ ".html") ∈ wL.fixtureFiles
      · rcases hmc : wL.modelClient (LDNC.reqOf wL a2) with e | t
        · rw [LDNC.main_model_error_slug wL a2 e hdir hmem hmc] at h2
          simp at h2
          subst h2
          rfl
        · by_cases ht : t = "[]"
          · subst ht
            rw [LDNC.main_sentinel_slug wL a2 hdir hmem hmc] at h2
            simp at h2
            subst h2
            rfl
          · rw [LDNC.main_found_slug wL a2 t hdir hmem hmc ht] at h2
            simp at h2
            subst h2
            rfl
      · rw [LDNC.main_no_file wL a2 hdir hmem] at h2
        simp at h2
    · have hdir' : wL.dirIsDir = false := by
        revert hdir; cases wL.dirIsDir <;> simp
      rw [LDNC.main_no_dir wL a2 hdir'] at h2
      simp at h2

/-- Witness for the amended C6: with the override unset, the id variant
sends the default; with the override set, the slug variant still sends the
hard-coded identifier. -/
theorem claim6_witness :
    (ENT.reqOf wFound "1").model = "gpt-3.5-turbo" ∧
    (LDNC.reqOf wEnvSet "foo").model = "gpt-3.5-turbo" := by
  have h := claim6_amended_model_override wFound wEnvSet "1" "foo"
    (ENT.reqOf wFound "1") (LDNC.reqOf wEnvSet "foo")
    (by
      rw [ENT.main_found wFound "1" "[x]" (by decide) rfl (by decide)]
      exact List.mem_singleton.mpr rfl)
    (by
      rw [LDNC.main_sentinel_slug wEnvSet "foo" rfl (by decide) rfl]
      exact List.mem_singleton.mpr rfl)
  exact ⟨by rw [h.1]; rfl, h.2⟩

/-- C7: resolving a slug succeeds exactly when the fixture directory
exists and contains the file named slug + ".html", in which case the
returned path is that file's path; when the directory is absent or the
exact file is missing, the run terminates via `sys.exit` with the
descriptive message, having contacted nothing and written nothing.  The
iff direction rules out any partial or fuzzy matching. -/
theorem claim7_slug_exact_match (w : World) (slug : String) :
    (∀ p, LDNC.get_file_by_slug w slug = Except.ok p ↔
      (w.dirIsDir = true ∧ (slug ++ ".html") ∈ w.fixtureFiles ∧
        p = "test_data/" ++ (slug ++ ".html"))) ∧
    (w.dirIsDir = false →
      LDNC.get_file_by_slug w slug = Except.error LDNC.dirErrMsg ∧
      (LDNC.main w slug).outcome = Outcome.exitMsg LDNC.dirErrMsg ∧
      (LDNC.main w slug).writes = [] ∧ (LDNC.main w slug).requests = []) ∧
    (w.dirIsDir = true → (slug ++ ".html") ∉ w.fixtureFiles →
      LDNC.get_file_by_slug w slug = Except.error (LDNC.noFileMsg slug) ∧
      (LDNC.main w slug).outcome = Outcome.exitMsg (LDNC.noFileMsg slug) ∧
      (LDNC.main w slug).writes = [] ∧ (LDNC.main w slug).requests = []) := by
  refine ⟨?_, ?_, ?_⟩
  · intro p
    unfold LDNC.get_file_by_slug
    by_cases h1 : w.dirIsDir = true
    · by_cases h2 : (slug ++ ".html") ∈ w.fixtureFiles
      · simp [h1, h2, eq_comm]
      · simp [h1, h2]
    · have h1' : w.dirIsDir = false := by
        revert h1; cases w.dirIsDir <;> simp
      simp [h1']
  · intro h
    rw [LDNC.main_no_dir w slug h]
    refine ⟨?_, rfl, rfl, rfl⟩
    unfold LDNC.get_file_by_slug
    simp [h]
  · intro h1 h2
    rw [LDNC.main_no_file w slug h1 h2]
    refine ⟨?_, rfl, rfl, rfl⟩
    unfold LDNC.get_file_by_slug
    simp [h1, h2]

/-- Witness for C7: in a fixture directory containing `foo.html`,
slug `"foo"` resolves to `test_data/foo.html` while the absent slug
`"bar"` exits with the not-found message. -/
theorem claim7_witness :
    LDNC.get_file_by_slug wFound "foo" = Except.ok "test_data/foo.html" ∧
    LDNC.get_file_by_slug wFound "bar" = Except.error (LDNC.noFileMsg "bar") ∧
    (LDNC.main wFound "bar").outcome = Outcome.exitMsg (LDNC.noFileMsg "bar") := by
  have hfoo := ((claim7_slug_exact_match wFound "foo").1 "test_data/foo.html").mpr
    ⟨rfl, by decide, by decide⟩
  have hbar := (claim7_slug_exact_match wFound "bar").2.2 rfl (by decide)
  exact ⟨hfoo, hbar.1, hbar.2.1⟩

/-- C8: in both variants the prompt is the variant's fixed instruction
block followed by the full opinion text embedded verbatim (and a closing
newline); it is a pure string composition whose length is exactly the
header length plus the text length plus one, for text of any length — so
no truncation, chunking, or length budgeting ever occurs.  The request's
user message is exactly this prompt. -/
theorem claim8_prompt_composition :
    (∀ s, ENT.prompt s = ENT.promptHeader ++ s ++ "\n") ∧
    (∀ s, (ENT.prompt s).length = ENT.promptHeader.length + s.length + 1) ∧
    (∀ env s, (ENT.mkRequest env s).input =
      ENT.systemMsgs ++ [("user", ENT.prompt s)]) ∧
    (∀ s, LDNC.prompt s = LDNC.promptHeader ++ s ++ "\n") ∧
    (∀ s, (LDNC.prompt s).length = LDNC.promptHeader.length + s.length + 1) ∧
    (∀ s, (LDNC.mkRequest s).input =
      LDNC.systemMsgs ++ [("user", LDNC.prompt s)]) := by
  have hE : ∀ s, ENT.prompt s = ENT.promptHeader ++ s ++ "\n" := by
    intro s
    simp [ENT.prompt, ENT.promptHeader, String.append_assoc]
  have hL : ∀ s, LDNC.prompt s = LDNC.promptHeader ++ s ++ "\n" := by
    intro s
    simp [LDNC.prompt, LDNC.promptHeader, String.append_assoc]
  have hn : ("\n" : String).length = 1 := rfl
  refine ⟨hE, ?_, fun env s => rfl, hL, ?_, fun s => rfl⟩ <;>
    intro s
  · rw [hE s]
    simp only [String.length_append]
    omega
  · rw [hL s]
    simp only [String.length_append]
    omega

/-- C9: the text extractor is a total function (it cannot raise, whatever
the markup), its output contains no tag-opening character at all — hence
no markup tags — and it is the newline-join of the visible text nodes,
each node nonempty with no leading or trailing whitespace. -/
theorem claim9_extractor_no_markup (html : String) :
    '<' ∉ (soup_get_text html).data ∧
    (soup_get_text html).data = joinNL (nodesOf html) ∧
    (∀ seg ∈ nodesOf html, seg ≠ [] ∧
      (∀ h, seg.head? = some h → pyIsSpace h = false) ∧
      (∀ h, seg.getLast? = some h → pyIsSpace h = false)) :=
  ⟨joinNL_no_lt _ (nodesOf_no_lt html), rfl, nodesOf_trimmed html⟩

/-- Witness for C9 at a concrete piece of malformed markup (an unclosed
tag): extraction succeeds, strips the tags and trims the nodes. -/
theorem claim9_witness :
    '<' ∉ (soup_get_text "<p> hi <b>there").data ∧
    soup_get_text "<p> hi <b>there" = "hi\nthere" :=
  ⟨(claim9_extractor_no_markup "<p> hi <b>there").1, by decide⟩

/-- C10: the id-variant CLI passes its single argument to the pipeline as
the very string it received — no integer conversion, no numeric
validation — and that string is interpolated verbatim into the fetched
URL; this holds for every argument string, numeric or not. -/
theorem claim10_arg_passed_verbatim (w : World) (prog arg : String) :
    ENT.cli w [prog, arg] = ENT.main w arg ∧
    (ENT.main w arg).httpRequests = [ENT.scholarUrl arg] ∧
    ENT.scholarUrl arg = "https://scholar.google.com/scholar_case?case=" ++ arg := by
  refine ⟨rfl, ?_, rfl⟩
  by_cases hE : 400 ≤ (w.http (ENT.scholarUrl arg)).status ∧
      (w.http (ENT.scholarUrl arg)).status < 600
  · rw [ENT.main_http_error w arg hE]
  · rcases hmc : w.modelClient (ENT.reqOf w arg) with e | t
    · rw [ENT.main_model_error w arg e hE hmc]
    · by_cases ht : t = "[]"
      · subst ht
        rw [ENT.main_sentinel w arg hE hmc]
      · rw [ENT.main_found w arg t hE hmc ht]

end NegTreat
